import Mathlib

/-!
Verification of the real-estate exposé generator (`src/app.py`).

The app collects form fields, binds them into a nested structure with
`prepare_property_data`, renders a named-placeholder template, and sends the
rendered prompt as a chat-completion request.  We embed the data model and
the generate handler as pure Lean functions; the external pieces (template
file, renderer, completion API, wall clock) are parameters or are modelled
from the specification where the repository file is not available.
-/

namespace ExposeApp

/-! ## Values bound into the template (Python dict / scalar model) -/

/-- A value bound for template substitution: string, number, list of strings,
or a nested object of named fields (the shapes produced by
`prepare_property_data` in `src/app.py`). -/
inductive Value where
  | str (s : String)
  | num (n : Nat)
  | list (l : List String)
  | obj (fields : List (String × Value))
deriving Repr

/-- Look up a key in an association list of fields (Python dict access). -/
def lookupField : List (String × Value) → String → Option Value
  | [], _ => none
  | (k, v) :: rest, key => if k = key then some v else lookupField rest key

/-- Follow a dotted attribute path (e.g. `expose_object.object_attributes.town`)
through nested objects. -/
def lookupPath (v : Value) : List String → Option Value
  | [] => some v
  | key :: rest =>
    match v with
    | Value.obj fields =>
      match lookupField fields key with
      | some v2 => lookupPath v2 rest
      | none => none
    | _ => none

/-! ## Python string helpers used by the feature-list comprehension

`feature_list = [f.strip() for f in features.split("\n") if f.strip()]`
(src/app.py line 207).  Python strings are character sequences, so the
split/strip primitives are embedded on `List Char`. -/

/-- Python `s.split(sep)` for a one-character separator: splits at every
occurrence, keeping empty pieces; `"".split(sep) = [""]`. -/
def pySplit (sep : Char) : List Char → List (List Char)
  | [] => [[]]
  | c :: rest =>
    match pySplit sep rest with
    | [] => [[c]]
    | h :: t => if c = sep then [] :: h :: t else (c :: h) :: t

/-- Python `s.strip()`: drop whitespace from both ends. -/
def pyStrip (l : List Char) : List Char :=
  (((l.dropWhile Char.isWhitespace).reverse).dropWhile Char.isWhitespace).reverse

/-- `feature_list` from src/app.py line 207: split the features text on
newlines, strip each line, keep the non-blank results (a blank stripped line
is falsy in Python). -/
def feature_list (features : String) : List String :=
  (((pySplit '\n' features.data).map pyStrip).filter (fun f => f ≠ [])).map
    (fun l => String.mk l)

/-! ## Form input and the property binding -/

/-- The form-field values consumed by the generate handler.  `garagesInput`
is the value of the garage-count widget (shown only when `garage = "Ja"`,
with UI minimum 1). -/
structure FormInput where
  estate_type : String
  estate_subtype : String
  town : String
  zip_code : String
  purchase_price : Nat
  living_space : Nat
  realty_area : Nat
  rooms : Nat
  bed_rooms : Nat
  bath_rooms : Nat
  construction_year : Nat
  condition : String
  energy_rating : String
  energy_consumption : Nat
  heating : String
  firing : String
  floorings : List String
  furnishing : String
  garden : String
  garage : String
  garagesInput : Nat
  parking_spaces : Nat
  features : String
  target_group : String
  text_style : String

/-- The `garages` variable of src/app.py lines 193-196: the entered count
when the garage flag is "Ja", otherwise 0. -/
def garagesVar (i : FormInput) : Nat :=
  if i.garage = "Ja" then i.garagesInput else 0

/-- `prepare_property_data` from src/app.py lines 232-264: the nested
binding structure handed to the template. -/
def prepare_property_data (i : FormInput) : List (String × Value) :=
  [("expose_object", Value.obj
      [("object_attributes", Value.obj
        [("estateType", Value.str i.estate_type),
         ("estateSubType", Value.str i.estate_subtype),
         ("town", Value.str i.town),
         ("zip", Value.str i.zip_code),
         ("purchasePrice", Value.num i.purchase_price),
         ("livingSpace", Value.num i.living_space),
         ("realtyArea", Value.num i.realty_area),
         ("rooms", Value.num i.rooms),
         ("bedRooms", Value.num i.bed_rooms),
         ("bathRooms", Value.num i.bath_rooms),
         ("constructionYearNumber", Value.num i.construction_year),
         ("condition", Value.str i.condition),
         ("energyEfficiencyRating", Value.str i.energy_rating),
         ("energyConsumption", Value.num i.energy_consumption),
         ("heatings", Value.str i.heating),
         ("firings", Value.str i.firing),
         ("floorings", Value.list i.floorings),
         ("furnishing", Value.str i.furnishing),
         ("garden", Value.str i.garden),
         ("garages", Value.num (if i.garage = "Ja" then garagesVar i else 0)),
         ("parkingSpaces", Value.num i.parking_spaces),
         ("estateDefaultFeatures", Value.list (feature_list i.features))])]),
   ("target_group", Value.str i.target_group),
   ("text_style", Value.str i.text_style)]

/-- The root object the template is rendered against
(`template.render(**property_data)`). -/
def propertyRoot (i : FormInput) : Value :=
  Value.obj (prepare_property_data i)

/-! ## Template and renderer

Modelled from the spec: the template file `expose_template.j2` is part of the
repository but not available under src/, and the rendering engine is an
external capability.  Per the spec (§4.1, §9) a template is a sequence of
literal text and named placeholders; `render(templateId, bindings) → text`
substitutes each placeholder from the bound structure, and an unresolved
placeholder is a hard error. -/

/-- One template segment: literal text or a dotted placeholder path. -/
inductive Segment where
  | lit (s : String)
  | hole (path : List String)
deriving Repr, DecidableEq

/-- How a bound value prints into the rendered text. -/
def renderValue : Value → String
  | Value.str s => s
  | Value.num n => toString n
  | Value.list l => String.intercalate ", " l
  | Value.obj _ => ""

/-- Modelled from the spec: render one segment against the bound root;
an unresolved placeholder is a hard error. -/
def renderSeg (root : Value) : Segment → Except String String
  | Segment.lit s => Except.ok s
  | Segment.hole path =>
    match lookupPath root path with
    | some v => Except.ok (renderValue v)
    | none => Except.error ("unresolved placeholder " ++ String.intercalate "." path)

/-- Modelled from the spec: render a whole template left to right,
concatenating the pieces; the first unresolved placeholder aborts rendering. -/
def render (root : Value) : List Segment → Except String String
  | [] => Except.ok ""
  | seg :: rest =>
    match renderSeg root seg with
    | Except.error e => Except.error e
    | Except.ok s =>
      match render root rest with
      | Except.error e => Except.error e
      | Except.ok srest => Except.ok (s ++ srest)

/-! ## Configuration constants and the completion request (src/app.py 62-64, 292-301) -/

def MODEL_NAME : String := "gpt-3.5-turbo"

def TEMPERATURE : ℚ := 9 / 10

def MAX_TOKENS : Nat := 800

def TOP_P : ℚ := 95 / 100

/-- The fixed system-role preamble (src/app.py line 295). -/
def systemPreamble : String :=
  "You are a professional real estate exposé writer. Generate accurate, well-structured property descriptions in German."

/-- One chat message. -/
structure Message where
  role : String
  content : String
deriving Repr, DecidableEq

/-- The completion request assembled by the handler. -/
structure CompletionRequest where
  model : String
  messages : List Message
  temperature : ℚ
  max_tokens : Nat
  top_p : ℚ
deriving Repr, DecidableEq

/-- The exact request `client.chat.completions.create(...)` is given
(src/app.py lines 292-301). -/
def buildRequest (prompt : String) : CompletionRequest :=
  { model := MODEL_NAME
    messages := [{ role := "system", content := systemPreamble },
                 { role := "user", content := prompt }]
    temperature := TEMPERATURE
    max_tokens := MAX_TOKENS
    top_p := TOP_P }

/-! ## Secrets (st.secrets) -/

/-- The secret store: `none` models `not hasattr(st, "secrets")`. -/
structure Secrets where
  entries : List (String × String)

/-- `st.secrets.get(key)`. -/
def Secrets.get (s : Secrets) (key : String) : Option String :=
  match s.entries.find? (fun p => p.fst = key) with
  | some p => some p.snd
  | none => none

/-- The credential check of src/app.py line 270:
`hasattr(st, "secrets") and st.secrets.get("OPENAI_API_KEY")` is truthy
(a missing key or an empty string is falsy). -/
def secretTruthy (secrets : Option Secrets) : Bool :=
  match secrets with
  | none => false
  | some s =>
    match s.get "OPENAI_API_KEY" with
    | none => false
    | some v => v ≠ ""

/-! ## Template loading (src/app.py lines 67-82)

The filesystem is a parameter: `none` means `expose_template.j2` does not
exist; `some (Except.error e)` means loading raised; `some (Except.ok t)`
is a successfully parsed template. -/

/-- `load_template`: returns the template (or `none`) together with the
error messages displayed. -/
def load_template (fs : Option (Except String (List Segment))) :
    Option (List Segment) × List String :=
  match fs with
  | none => (none, ["❌ Template file expose_template.j2 not found in current directory!"])
  | some (Except.error e) => (none, ["❌ Error loading template: " ++ e])
  | some (Except.ok t) => (some t, [])

/-! ## The generate handler (src/app.py lines 267-324) -/

/-- The message shown when the template is missing (src/app.py line 269). -/
def templateMissingMsg : String :=
  "⚠️ Template file not found. Please ensure expose_template.j2 exists."

/-- The message shown when no API key is resolvable (src/app.py line 271). -/
def apiKeyMissingMsg : String :=
  "⚠️ OpenAI API key not found in secrets. Please add it to your Streamlit secrets."

/-- The message the except-branch displays (src/app.py line 324). -/
def exceptMsg (e : String) : String := "❌ Error: " ++ e

/-- What one click of "Generate Exposé" produces: the completion requests
actually issued, the `st.error` messages shown, the displayed generated
text, and the displayed elapsed-seconds value. -/
structure GenResult where
  requests : List CompletionRequest
  errors : List String
  output : Option String
  elapsed : Option ℚ
deriving Repr

/-- The generate handler: template check, credential check, render, single
completion call (src/app.py lines 267-324).  `api` is the external
completion capability; `el` is the elapsed wall-clock time the timer
measures around the call. -/
def generate (template : Option (List Segment)) (secrets : Option Secrets)
    (i : FormInput) (api : CompletionRequest → Except String String)
    (el : ℚ) : GenResult :=
  match template with
  | none =>
    { requests := [], errors := [templateMissingMsg], output := none, elapsed := none }
  | some t =>
    if secretTruthy secrets then
      match render (propertyRoot i) t with
      | Except.error e =>
        { requests := [], errors := [exceptMsg e], output := none, elapsed := none }
      | Except.ok prompt =>
        let req := buildRequest prompt
        match api req with
        | Except.error e =>
          { requests := [req], errors := [exceptMsg e], output := none, elapsed := none }
        | Except.ok text =>
          { requests := [req], errors := [], output := some text, elapsed := some el }
    else
      { requests := [], errors := [apiKeyMissingMsg], output := none, elapsed := none }

/-- Does one segment resolve against the bound root? -/
def segResolvable (root : Value) : Segment → Bool
  | Segment.lit _ => true
  | Segment.hole path => (lookupPath root path).isSome

/-- Do all placeholders of a template resolve against the bound root? -/
def resolvable (root : Value) (t : List Segment) : Bool :=
  t.all (segResolvable root)

/-- The garages value bound into the structure handed to the template. -/
def boundGarages (i : FormInput) : Option Value :=
  lookupPath (propertyRoot i) ["expose_object", "object_attributes", "garages"]

/-- The default form values of the UI widgets (src/app.py lines 122-223). -/
def sampleInput : FormInput :=
  { estate_type := "Haus"
    estate_subtype := "Einfamilienhaus"
    town := "Berlin"
    zip_code := "10115"
    purchase_price := 500000
    living_space := 120
    realty_area := 300
    rooms := 4
    bed_rooms := 3
    bath_rooms := 2
    construction_year := 2005
    condition := "Gepflegt"
    energy_rating := "C"
    energy_consumption := 120
    heating := "Gasheizung"
    firing := "Gas"
    floorings := ["Parkett", "Fliesen"]
    furnishing := "Moderne Einbauküche, Badezimmer mit Fenster"
    garden := "Ja"
    garage := "Ja"
    garagesInput := 1
    parking_spaces := 1
    features := "Denkmalgeschützt\nAufzug\nKamin\nGäste-WC"
    target_group := "Familien"
    text_style := "Standard" }

/-- The defaults with the garage flag set to "Nein" while a positive count
was entered in the (hidden) count widget. -/
def inputNein : FormInput :=
  { sampleInput with garage := "Nein", garagesInput := 5 }

/-- The defaults with both optional fields left empty. -/
def inputEmptyOpt : FormInput :=
  { sampleInput with furnishing := "", features := "" }

/-- A secret store holding a non-empty API key. -/
def secretsOk : Secrets := { entries := [("OPENAI_API_KEY", "sk-test")] }

/-- A secret store mapping the API key to the empty string. -/
def secretsEmptyKey : Secrets := { entries := [("OPENAI_API_KEY", "")] }

/-- A completion capability that always succeeds. -/
def apiOk : CompletionRequest → Except String String :=
  fun _ => Except.ok "Ein schönes Haus."

/-- A completion capability that always fails (e.g. quota exceeded). -/
def apiFail : CompletionRequest → Except String String :=
  fun _ => Except.error "Rate limit reached"

/-- A two-segment template used to exercise the handler. -/
def sampleTemplate : List Segment :=
  [Segment.lit "Stadt: ", Segment.hole ["expose_object", "object_attributes", "town"]]

/-! ## Helper lemmas -/

/-- A non-empty string has positive length. -/
theorem length_pos_of_ne_empty (s : String) (h : s ≠ "") : 0 < s.length := by
  cases s with
  | mk data =>
    cases data with
    | nil => exact absurd rfl h
    | cons c cs => simp [String.length]

/-- If every placeholder resolves, rendering succeeds. -/
theorem render_ok_of_resolvable (root : Value) (t : List Segment)
    (h : resolvable root t = true) : ∃ out, render root t = Except.ok out := by
  induction t with
  | nil => exact ⟨"", rfl⟩
  | cons seg rest ih =>
    rw [resolvable, List.all_cons, Bool.and_eq_true] at h
    obtain ⟨out2, hout2⟩ := ih h.2
    cases seg with
    | lit s => exact ⟨s ++ out2, by simp [render, renderSeg, hout2]⟩
    | hole path =>
      have h1 := h.1
      rw [segResolvable] at h1
      cases hv : lookupPath root path with
      | none => rw [hv] at h1; simp at h1
      | some v =>
        exact ⟨renderValue v ++ out2, by simp [render, renderSeg, hv, hout2]⟩

/-- An unresolved placeholder makes rendering fail. -/
theorem render_error_of_unresolved (root : Value) (t : List Segment)
    (path : List String) (hmem : Segment.hole path ∈ t)
    (hnone : lookupPath root path = none) :
    ∃ e, render root t = Except.error e := by
  induction t with
  | nil => simp at hmem
  | cons seg rest ih =>
    rcases List.mem_cons.mp hmem with heq | hrest
    · exact ⟨"unresolved placeholder " ++ String.intercalate "." path,
        by rw [← heq]; simp [render, renderSeg, hnone]⟩
    · obtain ⟨e, he⟩ := ih hrest
      cases hs : renderSeg root seg with
      | error e2 => exact ⟨e2, by simp [render, hs]⟩
      | ok s => exact ⟨e, by simp [render, hs, he]⟩

/-- A literal segment contributes its full length to a successful render. -/
theorem length_le_of_lit_mem (root : Value) (t : List Segment) (s : String) :
    ∀ out, Segment.lit s ∈ t → render root t = Except.ok out →
      s.length ≤ out.length := by
  induction t with
  | nil => intro out hmem; simp at hmem
  | cons seg rest ih =>
    intro out hmem hout
    cases hs : renderSeg root seg with
    | error e => rw [render, hs] at hout; exact absurd hout (by simp)
    | ok s1 =>
      cases hr : render root rest with
      | error e => rw [render, hs, hr] at hout; exact absurd hout (by simp)
      | ok s2 =>
        rw [render, hs, hr] at hout
        have hout2 : out = s1 ++ s2 := by
          cases hout; rfl
        rcases List.mem_cons.mp hmem with heq | hrest
        · have hs1 : s1 = s := by
            rw [← heq, renderSeg] at hs
            cases hs; rfl
          rw [hout2, String.length_append, hs1]
          omega
        · have := ih s2 hrest hr
          rw [hout2, String.length_append]
          omega

/-- The first character surviving `dropWhile p` falsifies `p`. -/
theorem dropWhile_head_false (p : Char → Bool) (l : List Char) :
    ∀ c cs, l.dropWhile p = c :: cs → p c = false := by
  induction l with
  | nil => intro c cs h; simp [List.dropWhile] at h
  | cons a as ih =>
    intro c cs h
    by_cases hp : p a
    · rw [List.dropWhile_cons_of_pos hp] at h
      exact ih c cs h
    · rw [List.dropWhile_cons_of_neg hp] at h
      cases h
      exact Bool.of_not_eq_true hp

/-- `dropWhile` returns a suffix of its input. -/
theorem dropWhile_is_suffix (p : Char → Bool) (l : List Char) :
    ∃ t, t ++ l.dropWhile p = l := by
  induction l with
  | nil => exact ⟨[], rfl⟩
  | cons a as ih =>
    by_cases hp : p a
    · obtain ⟨t, ht⟩ := ih
      exact ⟨a :: t, by rw [List.dropWhile_cons_of_pos hp, List.cons_append, ht]⟩
    · exact ⟨[], by rw [List.dropWhile_cons_of_neg hp, List.nil_append]⟩

/-- The first character of a non-empty stripped line is not whitespace. -/
theorem pyStrip_head_not_white (l : List Char) :
    ∀ c cs, pyStrip l = c :: cs → c.isWhitespace = false := by
  intro c cs h
  rw [pyStrip] at h
  obtain ⟨t, ht⟩ := dropWhile_is_suffix Char.isWhitespace
    (l.dropWhile Char.isWhitespace).reverse
  have h2 : (((l.dropWhile Char.isWhitespace).reverse.dropWhile
      Char.isWhitespace).reverse) ++ t.reverse = l.dropWhile Char.isWhitespace := by
    have := congrArg List.reverse ht
    rwa [List.reverse_append, List.reverse_reverse] at this
  rw [h] at h2
  rw [List.cons_append] at h2
  exact dropWhile_head_false Char.isWhitespace l c (cs ++ t.reverse) h2.symm

/-! ## Claim theorems -/

/-- C1: if the template contains a placeholder that does not resolve from the
binding produced by `prepare_property_data`, the handler shows the hard
rendering error and issues no external completion call. -/
theorem unresolved_placeholder_fails_fast (t : List Segment)
    (secrets : Option Secrets) (i : FormInput)
    (api : CompletionRequest → Except String String) (el : ℚ)
    (path : List String)
    (hsec : secretTruthy secrets = true)
    (hmem : Segment.hole path ∈ t)
    (hnone : lookupPath (propertyRoot i) path = none) :
    ∃ e, (generate (some t) secrets i api el).errors = [exceptMsg e] ∧
      (generate (some t) secrets i api el).requests = [] ∧
      (generate (some t) secrets i api el).output = none := by
  obtain ⟨e, he⟩ := render_error_of_unresolved (propertyRoot i) t path hmem hnone
  exact ⟨e, by simp [generate, hsec, he]⟩

theorem unresolved_placeholder_fails_fast_witness :
    secretTruthy (some secretsOk) = true ∧
    Segment.hole ["missing"] ∈ [Segment.hole ["missing"]] ∧
    lookupPath (propertyRoot sampleInput) ["missing"] = none ∧
    ∃ e, (generate (some [Segment.hole ["missing"]]) (some secretsOk) sampleInput
        apiOk 0).errors = [exceptMsg e] ∧
      (generate (some [Segment.hole ["missing"]]) (some secretsOk) sampleInput
        apiOk 0).requests = [] ∧
      (generate (some [Segment.hole ["missing"]]) (some secretsOk) sampleInput
        apiOk 0).output = none :=
  ⟨rfl, by decide, rfl,
   unresolved_placeholder_fails_fast [Segment.hole ["missing"]] (some secretsOk)
     sampleInput apiOk 0 ["missing"] rfl (by decide) rfl⟩

/-- C2: whenever no OpenAI API key is resolvable from the secret store, the
generate action reports a configuration error (the missing-template or the
missing-key message, both of the ConfigurationError taxonomy) and never
issues an external completion call. -/
theorem missing_credential_no_call (template : Option (List Segment))
    (secrets : Option Secrets) (i : FormInput)
    (api : CompletionRequest → Except String String) (el : ℚ)
    (h : secretTruthy secrets = false) :
    (generate template secrets i api el).requests = [] ∧
    (generate template secrets i api el).output = none ∧
    ((generate template secrets i api el).errors = [templateMissingMsg] ∨
     (generate template secrets i api el).errors = [apiKeyMissingMsg]) := by
  cases template with
  | none => exact ⟨rfl, rfl, Or.inl rfl⟩
  | some t =>
    refine ⟨?_, ?_, Or.inr ?_⟩ <;> simp [generate, h]

theorem missing_credential_no_call_witness :
    secretTruthy none = false ∧
    ((generate (some sampleTemplate) none sampleInput apiOk 0).requests = [] ∧
     (generate (some sampleTemplate) none sampleInput apiOk 0).output = none ∧
     ((generate (some sampleTemplate) none sampleInput apiOk 0).errors
        = [templateMissingMsg] ∨
      (generate (some sampleTemplate) none sampleInput apiOk 0).errors
        = [apiKeyMissingMsg])) :=
  ⟨rfl, missing_credential_no_call (some sampleTemplate) none sampleInput apiOk 0 rfl⟩

/-- C3: a failure of the external completion exchange surfaces exactly one
user-facing error message, the call is issued exactly once (no retry), and
no partial generated result or elapsed time is displayed. -/
theorem external_failure_atomic (t : List Segment) (secrets : Option Secrets)
    (i : FormInput) (api : CompletionRequest → Except String String) (el : ℚ)
    (p e : String)
    (hsec : secretTruthy secrets = true)
    (hrender : render (propertyRoot i) t = Except.ok p)
    (hapi : api (buildRequest p) = Except.error e) :
    (generate (some t) secrets i api el).errors = [exceptMsg e] ∧
    (generate (some t) secrets i api el).requests = [buildRequest p] ∧
    (generate (some t) secrets i api el).output = none ∧
    (generate (some t) secrets i api el).elapsed = none := by
  simp [generate, hsec, hrender, hapi]

theorem external_failure_atomic_witness :
    secretTruthy (some secretsOk) = true ∧
    render (propertyRoot sampleInput) sampleTemplate = Except.ok "Stadt: Berlin" ∧
    apiFail (buildRequest "Stadt: Berlin") = Except.error "Rate limit reached" ∧
    ((generate (some sampleTemplate) (some secretsOk) sampleInput apiFail 0).errors
        = [exceptMsg "Rate limit reached"] ∧
     (generate (some sampleTemplate) (some secretsOk) sampleInput apiFail 0).requests
        = [buildRequest "Stadt: Berlin"] ∧
     (generate (some sampleTemplate) (some secretsOk) sampleInput apiFail 0).output
        = none ∧
     (generate (some sampleTemplate) (some secretsOk) sampleInput apiFail 0).elapsed
        = none) :=
  ⟨rfl, rfl, rfl,
   external_failure_atomic sampleTemplate (some secretsOk) sampleInput apiFail 0
     "Stadt: Berlin" "Rate limit reached" rfl rfl rfl⟩

/-- C4: binding and rendering are pure functions of the form input and the
template, so two renders of the same input produce the same string. -/
theorem render_deterministic (i : FormInput) (t : List Segment)
    (out1 out2 : String)
    (h1 : render (propertyRoot i) t = Except.ok out1)
    (h2 : render (propertyRoot i) t = Except.ok out2) :
    out1 = out2 := by
  rw [h1] at h2
  injection h2

theorem render_deterministic_witness :
    render (propertyRoot sampleInput) sampleTemplate = Except.ok "Stadt: Berlin" ∧
    "Stadt: Berlin" = "Stadt: Berlin" :=
  ⟨rfl, render_deterministic sampleInput sampleTemplate _ _ rfl rfl⟩

/-- C5: the bound garages value is 0 whenever the garage flag is not "Ja"
(even if a positive count was entered), and equals the entered count
(which the UI keeps at least 1) when the flag is "Ja". -/
theorem garage_coercion (i : FormInput) :
    (i.garage ≠ "Ja" → boundGarages i = some (Value.num 0)) ∧
    (i.garage = "Ja" → boundGarages i = some (Value.num i.garagesInput)) ∧
    (i.garage = "Ja" → 1 ≤ i.garagesInput →
      ∃ n, boundGarages i = some (Value.num n) ∧ 1 ≤ n) := by
  have hb : boundGarages i
      = some (Value.num (if i.garage = "Ja" then garagesVar i else 0)) := rfl
  refine ⟨?_, ?_, ?_⟩
  · intro h
    rw [hb, if_neg h]
  · intro h
    rw [hb, if_pos h, garagesVar, if_pos h]
  · intro h hmin
    exact ⟨i.garagesInput, by rw [hb, if_pos h, garagesVar, if_pos h], hmin⟩

theorem garage_coercion_witness :
    (inputNein.garage ≠ "Ja" ∧ boundGarages inputNein = some (Value.num 0)) ∧
    (sampleInput.garage = "Ja" ∧
      boundGarages sampleInput = some (Value.num 1)) :=
  ⟨⟨by decide, (garage_coercion inputNein).1 (by decide)⟩,
   ⟨rfl, (garage_coercion sampleInput).2.1 rfl⟩⟩

/-- C6: with the optional fields empty the binding holds the neutral values
(furnishing bound to the empty string, features bound to the empty list),
rendering succeeds, and the produced prompt is non-empty whenever the
template resolves and carries a non-empty literal. -/
theorem empty_optional_fields_ok (i : FormInput) (t : List Segment) (s : String)
    (hfurn : i.furnishing = "") (hfeat : i.features = "")
    (hres : resolvable (propertyRoot i) t = true)
    (hlit : Segment.lit s ∈ t) (hs : s ≠ "") :
    lookupPath (propertyRoot i) ["expose_object", "object_attributes", "furnishing"]
        = some (Value.str "") ∧
    lookupPath (propertyRoot i)
        ["expose_object", "object_attributes", "estateDefaultFeatures"]
        = some (Value.list []) ∧
    ∃ out, render (propertyRoot i) t = Except.ok out ∧ out ≠ "" := by
  refine ⟨?_, ?_, ?_⟩
  · have hl : lookupPath (propertyRoot i)
        ["expose_object", "object_attributes", "furnishing"]
        = some (Value.str i.furnishing) := rfl
    rw [hl, hfurn]
  · have hl : lookupPath (propertyRoot i)
        ["expose_object", "object_attributes", "estateDefaultFeatures"]
        = some (Value.list (feature_list i.features)) := rfl
    rw [hl, hfeat]
    rfl
  · obtain ⟨out, hout⟩ := render_ok_of_resolvable _ t hres
    refine ⟨out, hout, ?_⟩
    have hlen := length_le_of_lit_mem _ t s out hlit hout
    have hpos := length_pos_of_ne_empty s hs
    intro hempty
    rw [hempty] at hlen
    have hz : ("" : String).length = 0 := rfl
    rw [hz] at hlen
    omega

theorem empty_optional_fields_ok_witness :
    inputEmptyOpt.furnishing = "" ∧ inputEmptyOpt.features = "" ∧
    resolvable (propertyRoot inputEmptyOpt) sampleTemplate = true ∧
    Segment.lit "Stadt: " ∈ sampleTemplate ∧ "Stadt: " ≠ "" ∧
    (lookupPath (propertyRoot inputEmptyOpt)
        ["expose_object", "object_attributes", "furnishing"]
        = some (Value.str "") ∧
     lookupPath (propertyRoot inputEmptyOpt)
        ["expose_object", "object_attributes", "estateDefaultFeatures"]
        = some (Value.list []) ∧
     ∃ out, render (propertyRoot inputEmptyOpt) sampleTemplate = Except.ok out ∧
       out ≠ "") :=
  ⟨rfl, rfl, rfl, by decide, by decide,
   empty_optional_fields_ok inputEmptyOpt sampleTemplate "Stadt: " rfl rfl rfl
     (by decide) (by decide)⟩

/-- C7: when the template file cannot be loaded, `load_template` yields no
template, and the generate action reports the configuration error without
any completion attempt. -/
theorem missing_template_aborts (fs : Option (Except String (List Segment)))
    (secrets : Option Secrets) (i : FormInput)
    (api : CompletionRequest → Except String String) (el : ℚ)
    (h : (load_template fs).1 = none) :
    (generate (load_template fs).1 secrets i api el).requests = [] ∧
    (generate (load_template fs).1 secrets i api el).errors
        = [templateMissingMsg] ∧
    (generate (load_template fs).1 secrets i api el).output = none := by
  rw [h]
  exact ⟨rfl, rfl, rfl⟩

theorem missing_template_aborts_witness :
    (load_template none).1 = none ∧
    ((generate (load_template none).1 (some secretsOk) sampleInput apiOk 0).requests
        = [] ∧
     (generate (load_template none).1 (some secretsOk) sampleInput apiOk 0).errors
        = [templateMissingMsg] ∧
     (generate (load_template none).1 (some secretsOk) sampleInput apiOk 0).output
        = none) :=
  ⟨rfl, missing_template_aborts none (some secretsOk) sampleInput apiOk 0 rfl⟩

/-- C8: every completion request the handler issues is the fixed contract:
maxOutputTokens 800, temperature within [0,2], the nucleus-sampling
parameter fixed, and exactly two messages — the system persona preamble
followed by the rendered user prompt; on success the handler exposes the
generated text and the elapsed-seconds value. -/
theorem fixed_request_contract (t : List Segment) (secrets : Option Secrets)
    (i : FormInput) (api : CompletionRequest → Except String String) (el : ℚ)
    (p : String)
    (hsec : secretTruthy secrets = true)
    (hrender : render (propertyRoot i) t = Except.ok p) :
    (generate (some t) secrets i api el).requests = [buildRequest p] ∧
    (buildRequest p).max_tokens = 800 ∧
    (0 ≤ (buildRequest p).temperature ∧ (buildRequest p).temperature ≤ 2) ∧
    (buildRequest p).top_p = TOP_P ∧
    (buildRequest p).messages =
      [{ role := "system", content := systemPreamble },
       { role := "user", content := p }] ∧
    (∀ text, api (buildRequest p) = Except.ok text →
      (generate (some t) secrets i api el).output = some text ∧
      (generate (some t) secrets i api el).elapsed = some el) := by
  refine ⟨?_, rfl, ⟨?_, ?_⟩, rfl, rfl, ?_⟩
  · cases hapi : api (buildRequest p) with
    | error e => simp [generate, hsec, hrender, hapi]
    | ok text => simp [generate, hsec, hrender, hapi]
  · norm_num [buildRequest, TEMPERATURE]
  · norm_num [buildRequest, TEMPERATURE]
  · intro text htext
    constructor <;> simp [generate, hsec, hrender, htext]

theorem fixed_request_contract_witness :
    secretTruthy (some secretsOk) = true ∧
    render (propertyRoot sampleInput) sampleTemplate = Except.ok "Stadt: Berlin" ∧
    ((generate (some sampleTemplate) (some secretsOk) sampleInput apiOk 0).requests
        = [buildRequest "Stadt: Berlin"] ∧
     (buildRequest "Stadt: Berlin").max_tokens = 800 ∧
     (0 ≤ (buildRequest "Stadt: Berlin").temperature ∧
      (buildRequest "Stadt: Berlin").temperature ≤ 2) ∧
     (buildRequest "Stadt: Berlin").top_p = TOP_P ∧
     (buildRequest "Stadt: Berlin").messages =
       [{ role := "system", content := systemPreamble },
        { role := "user", content := "Stadt: Berlin" }] ∧
     (∀ text, apiOk (buildRequest "Stadt: Berlin") = Except.ok text →
       (generate (some sampleTemplate) (some secretsOk) sampleInput apiOk 0).output
          = some text ∧
       (generate (some sampleTemplate) (some secretsOk) sampleInput apiOk 0).elapsed
          = some 0)) :=
  ⟨rfl, rfl,
   fixed_request_contract sampleTemplate (some secretsOk) sampleInput apiOk 0
     "Stadt: Berlin" rfl rfl⟩

/-- C9: the bound feature list is the newline-split, whitespace-stripped,
blank-dropped form of the features text: it never contains empty or
whitespace-only strings and is an order-preserving sublist of the
per-line-stripped input lines. -/
theorem feature_list_invariant (s : String) :
    (∀ x ∈ feature_list s, x ≠ "" ∧ x.data.all Char.isWhitespace = false) ∧
    List.Sublist (feature_list s)
      ((pySplit '\n' s.data).map (fun l => String.mk (pyStrip l))) := by
  constructor
  · intro x hx
    rw [feature_list] at hx
    obtain ⟨l1, hl1, hxeq⟩ := List.mem_map.mp hx
    obtain ⟨hl1mem, hl1ne⟩ := List.mem_filter.mp hl1
    obtain ⟨l0, hl0, hstrip⟩ := List.mem_map.mp hl1mem
    have hne : l1 ≠ [] := of_decide_eq_true hl1ne
    subst hxeq
    constructor
    · intro habs
      exact hne (congrArg String.data habs)
    · obtain ⟨c, cs, hl1c⟩ : ∃ c cs, l1 = c :: cs := by
        cases l1 with
        | nil => exact absurd rfl hne
        | cons c cs => exact ⟨c, cs, rfl⟩
      have hcfalse : c.isWhitespace = false := by
        apply pyStrip_head_not_white l0 c cs
        rw [hstrip, hl1c]
      show l1.all Char.isWhitespace = false
      rw [hl1c, List.all_cons, hcfalse]
      rfl
  · rw [feature_list]
    have h1 : List.Sublist
        (((pySplit '\n' s.data).map pyStrip).filter (fun f => f ≠ []))
        ((pySplit '\n' s.data).map pyStrip) := List.filter_sublist _
    have h2 := h1.map String.mk
    rw [List.map_map] at h2
    exact h2

theorem feature_list_invariant_witness :
    "a" ∈ feature_list (String.mk ['a', '\n', ' ', '\n', ' ', 'b', ' ']) ∧
    ("a" ≠ "" ∧ "a".data.all Char.isWhitespace = false) :=
  ⟨by decide,
   (feature_list_invariant (String.mk ['a', '\n', ' ', '\n', ' ', 'b', ' '])).1
     "a" (by decide)⟩

/-- C10: an empty-string credential is falsy for the truthiness check, so
the handler reports the missing-key configuration error and attempts no
external call. -/
theorem empty_key_treated_missing (t : List Segment) (s : Secrets)
    (i : FormInput) (api : CompletionRequest → Except String String) (el : ℚ)
    (h : s.get "OPENAI_API_KEY" = some "") :
    (generate (some t) (some s) i api el).errors = [apiKeyMissingMsg] ∧
    (generate (some t) (some s) i api el).requests = [] ∧
    (generate (some t) (some s) i api el).output = none := by
  have hfalse : secretTruthy (some s) = false := by
    simp [secretTruthy, h]
  refine ⟨?_, ?_, ?_⟩ <;> simp [generate, hfalse]

theorem empty_key_treated_missing_witness :
    Secrets.get secretsEmptyKey "OPENAI_API_KEY" = some "" ∧
    ((generate (some sampleTemplate) (some secretsEmptyKey) sampleInput apiOk
        0).errors = [apiKeyMissingMsg] ∧
     (generate (some sampleTemplate) (some secretsEmptyKey) sampleInput apiOk
        0).requests = [] ∧
     (generate (some sampleTemplate) (some secretsEmptyKey) sampleInput apiOk
        0).output = none) :=
  ⟨rfl, empty_key_treated_missing sampleTemplate secretsEmptyKey sampleInput
    apiOk 0 rfl⟩

end ExposeApp
